import Mathlib

/-!
Shallow embedding of the ledger-consistency core of the bookkeeping service:
the transactions store (src/lib/supabase/queries/transactions.ts and the
calculate_account_balance SQL function), the category store
(queries/categories.ts, queries/bank-accounts.ts, the seed_default_categories
SQL function), the API routes for transactions and categories, and the
CSV importer (csv-parser).

Conventions of the embedding:
* the database is a list of rows plus a next-identity counter (Postgres
  bigint identity columns); inserts append at the end;
* monetary amounts are exact rationals (the store's numeric values);
* calendar dates in the transactions table are abstracted to natural
  numbers ordered chronologically (the date column is totally ordered and
  only compared with lte in the queries modelled here);
* owner identifiers (auth user ids) are natural numbers;
* each remote store call that the source awaits can fail; where a claim
  depends on failure, the success of each call is injected explicitly
  (an oracle record), mirroring which awaits the source checks.
-/

namespace Bookkeeping

/-- A row of the transactions table (see the Transaction type in
src/lib/supabase/queries/transactions.ts and the initial-schema migration). -/
structure Txn where
  id : Nat
  user_id : Nat
  bank_account_id : Nat
  date : Nat
  amount : ℚ
  description : String
  category_id : Nat
  transfer_to_account_id : Option Nat
  deriving Repr, DecidableEq

/-- The transactions table: rows plus the identity counter used for the next
inserted row. -/
structure DB where
  rows : List Txn
  nextId : Nat
  deriving Repr, DecidableEq

/-- An empty transactions table. -/
def DB.empty : DB := ⟨[], 1⟩

/-- createTransaction of transactions.ts: inserts a row with the given
fields and the caller's user id. The source performs no validation of the
amount (or of any other field) before the insert. -/
def createTransaction (u : Nat) (bankAccountId : Nat) (date : Nat) (amount : ℚ)
    (description : String) (categoryId : Nat) (transferToAccountId : Option Nat)
    (db : DB) : DB × Txn :=
  let t : Txn :=
    { id := db.nextId, user_id := u, bank_account_id := bankAccountId,
      date := date, amount := amount, description := description,
      category_id := categoryId, transfer_to_account_id := transferToAccountId }
  ({ rows := db.rows ++ [t], nextId := db.nextId + 1 }, t)

/-- The partial-update record accepted by updateTransaction. -/
structure TxnUpdate where
  bank_account_id : Option Nat := none
  date : Option Nat := none
  amount : Option ℚ := none
  description : Option String := none
  category_id : Option Nat := none
  transfer_to_account_id : Option (Option Nat) := none
  deriving Repr, DecidableEq

/-- Application of a partial update to a row. -/
def applyTxnUpdate (c : TxnUpdate) (t : Txn) : Txn :=
  { t with
    bank_account_id := c.bank_account_id.getD t.bank_account_id,
    date := c.date.getD t.date,
    amount := c.amount.getD t.amount,
    description := c.description.getD t.description,
    category_id := c.category_id.getD t.category_id,
    transfer_to_account_id := c.transfer_to_account_id.getD t.transfer_to_account_id }

/-- updateTransaction of transactions.ts: updates the row with the given id. -/
def updateTransaction (id : Nat) (c : TxnUpdate) (db : DB) : DB :=
  { db with rows := db.rows.map (fun t => if t.id == id then applyTxnUpdate c t else t) }

/-- deleteTransaction of transactions.ts: unconditionally deletes the row
with the given id. -/
def deleteTransaction (id : Nat) (db : DB) : DB :=
  { db with rows := db.rows.filter (fun t => t.id != id) }

/-- Success or failure of the three awaited store calls inside
createTransferTransaction: the outgoing insert, the incoming insert, and the
compensating delete that the source issues when the incoming insert failed.
The source checks the errors of the two inserts but discards the result of
the delete. -/
structure TransferOracle where
  okOutgoing : Bool
  okIncoming : Bool
  okRollback : Bool
  deriving Repr, DecidableEq

/-- All awaited calls succeed. -/
def TransferOracle.allOk : TransferOracle := ⟨true, true, true⟩

/-- createTransferTransaction of transactions.ts: inserts the outgoing half
with amount -abs(amount) and the destination in transfer_to_account_id, then
the incoming half with amount abs(amount), description prefixed with
"Transfer from ", and the source account in transfer_to_account_id.  If the
incoming insert fails, the source issues a delete of the outgoing row by id
(whose own outcome it does not check) and surfaces the incoming error. -/
def createTransferTransaction (oracle : TransferOracle) (u : Nat)
    (fromAccountId toAccountId : Nat) (date : Nat) (amount : ℚ)
    (description : String) (categoryId : Nat) (db : DB) :
    DB × Except String (Txn × Txn) :=
  if !oracle.okOutgoing then
    (db, .error "Failed to create outgoing transaction")
  else
    let outgoing : Txn :=
      { id := db.nextId, user_id := u, bank_account_id := fromAccountId,
        date := date, amount := -|amount|, description := description,
        category_id := categoryId, transfer_to_account_id := some toAccountId }
    let db1 : DB := { rows := db.rows ++ [outgoing], nextId := db.nextId + 1 }
    if !oracle.okIncoming then
      let db2 : DB :=
        if oracle.okRollback then
          { db1 with rows := db1.rows.filter (fun t => t.id != outgoing.id) }
        else db1
      (db2, .error "Failed to create incoming transaction")
    else
      let incoming : Txn :=
        { id := db1.nextId, user_id := u, bank_account_id := toAccountId,
          date := date, amount := |amount|,
          description := "Transfer from " ++ description,
          category_id := categoryId, transfer_to_account_id := some fromAccountId }
      ({ rows := db1.rows ++ [incoming], nextId := db1.nextId + 1 },
        .ok (outgoing, incoming))

/-- The calculate_account_balance SQL function of the initial-schema
migration (also reached through getBankAccountsWithBalances): the coalesced
sum of the amounts of the transactions whose bank_account_id is the given
account, 0 when there are none. -/
def calculate_account_balance (db : DB) (accountId : Nat) : ℚ :=
  ((db.rows.filter (fun t => t.bank_account_id == accountId)).map Txn.amount).sum

/-- The bulk-delete route (DELETE of app/api/transactions/bulk/route.ts)
removes the caller's rows whose id is in the request list; this is its effect
on the table. -/
def bulkDeleteRows (u : Nat) (ids : List Nat) (db : DB) : DB :=
  { db with rows := db.rows.filter (fun t => !(t.user_id == u && ids.contains t.id)) }

/-- The response body of the bulk-delete route. -/
structure BulkDeleteResponse where
  success : Bool
  deleted : Nat
  deriving Repr, DecidableEq

/-- DELETE of app/api/transactions/bulk/route.ts: rejects a missing or empty
transaction_ids array, otherwise deletes the caller's rows with those ids in
one store call and reports deleted equal to the length of the request list. -/
def bulkDeleteRoute (u : Nat) (transaction_ids : Option (List Nat)) (db : DB) :
    DB × Except String BulkDeleteResponse :=
  match transaction_ids with
  | none => (db, .error "transaction_ids array is required")
  | some ids =>
    if ids.isEmpty then
      (db, .error "transaction_ids array is required")
    else
      (bulkDeleteRows u ids db, .ok { success := true, deleted := ids.length })

/-- The mutating operations on the transactions table reachable from the
API: manual create, partial update, single delete, transfer creation (both
halves succeeding), and bulk delete. -/
inductive LedgerOp where
  | create (u bankAccountId : Nat) (date : Nat) (amount : ℚ) (description : String)
      (categoryId : Nat) (transferToAccountId : Option Nat)
  | update (id : Nat) (changes : TxnUpdate)
  | delete (id : Nat)
  | transfer (u fromAccountId toAccountId : Nat) (date : Nat) (amount : ℚ)
      (description : String) (categoryId : Nat)
  | bulkDelete (u : Nat) (ids : List Nat)
  deriving Repr, DecidableEq

/-- Effect of one operation on the transactions table. -/
def applyOp (db : DB) : LedgerOp → DB
  | .create u acct d amt desc cat tto => (createTransaction u acct d amt desc cat tto db).1
  | .update id c => updateTransaction id c db
  | .delete id => deleteTransaction id db
  | .transfer u fromA toA d amt desc cat =>
      (createTransferTransaction TransferOracle.allOk u fromA toA d amt desc cat db).1
  | .bulkDelete u ids => bulkDeleteRows u ids db

/-- State of the transactions table after a sequence of operations applied to
an empty table. -/
def runOps (ops : List LedgerOp) : DB :=
  ops.foldl applyOp DB.empty

/-- The sum of the amounts of an account's transactions, written as a direct
recursion over the rows (the quantity the specification calls the account
balance). -/
def sumAmountsForAccount (accountId : Nat) : List Txn → ℚ
  | [] => 0
  | t :: ts =>
    (if t.bank_account_id = accountId then t.amount else 0) + sumAmountsForAccount accountId ts

/-- The running balance that getTransactions (transactions.ts) attaches to a
returned row: the inner query selects the amounts of all transactions of the
same account with date lte the row's date (its order clauses on date and id
do not change the reduced sum), and the row receives their sum. -/
def runningBalanceOf (db : DB) (t : Txn) : ℚ :=
  ((db.rows.filter
      (fun s => s.bank_account_id == t.bank_account_id && decide (s.date ≤ t.date))).map
    Txn.amount).sum

/-- The balance-attachment step of getTransactions: every row of the fetched
page is paired with its running balance computed against the whole table. -/
def attachRunningBalances (db : DB) (page : List Txn) : List (Txn × ℚ) :=
  page.map (fun t => (t, runningBalanceOf db t))

/-- Modelled from the spec: the running balance as of a transaction is the
sum of that account's amounts over the transactions strictly before it by
date, or on the same date with id up to the row's id (ties broken by the
stable insertion/id order). -/
def spec_runningBalance (db : DB) (t : Txn) : ℚ :=
  ((db.rows.filter
      (fun s => s.bank_account_id == t.bank_account_id &&
        (decide (s.date < t.date) || (s.date == t.date && decide (s.id ≤ t.id))))).map
    Txn.amount).sum

/-- Three transactions on account 1 sharing date 5, amounts 10, 20, 30, in
insertion/id order 1, 2, 3. -/
def sameDateLedger : DB :=
  ⟨[⟨1, 7, 1, 5, 10, "first", 3, none⟩,
    ⟨2, 7, 1, 5, 20, "second", 3, none⟩,
    ⟨3, 7, 1, 5, 30, "third", 3, none⟩], 4⟩

/-- The JSON body accepted by POST of app/api/transactions/route.ts. A field
is none when absent from the request. -/
structure PostBody where
  bank_account_id : Option Nat
  date : Option Nat
  amount : Option ℚ
  description : Option String
  category_id : Option Nat
  transfer_to_account_id : Option Nat
  deriving Repr, DecidableEq

/-- Truthiness of an optional numeric field: absent and 0 are falsy. -/
def truthyNat : Option Nat → Bool
  | none => false
  | some n => n != 0

/-- Truthiness of an optional string field: absent and empty are falsy. -/
def truthyStr : Option String → Bool
  | none => false
  | some s => s != ""

/-- POST of app/api/transactions/route.ts: rejects the request when
bank_account_id, date, description or category_id is falsy or amount is
absent (a zero amount passes, since the route tests amount strictly against
undefined); then routes truthy transfer_to_account_id through
createTransferTransaction and everything else through createTransaction,
which itself performs no validation. -/
def POST_transactions (u : Nat) (body : PostBody) (db : DB) :
    DB × Except String (List Txn) :=
  if !(truthyNat body.bank_account_id && body.date.isSome && body.amount.isSome &&
        truthyStr body.description && truthyNat body.category_id) then
    (db, .error "Missing required fields")
  else
    let bankAccountId := body.bank_account_id.getD 0
    let date := body.date.getD 0
    let amount := body.amount.getD 0
    let description := body.description.getD ""
    let categoryId := body.category_id.getD 0
    if truthyNat body.transfer_to_account_id then
      let r := createTransferTransaction TransferOracle.allOk u bankAccountId
        (body.transfer_to_account_id.getD 0) date amount description categoryId db
      match r.2 with
      | .ok p => (r.1, .ok [p.1, p.2])
      | .error e => (r.1, .error e)
    else
      let r := createTransaction u bankAccountId date amount description categoryId none db
      (r.1, .ok [r.2])

/-- A row of the categories table (queries/categories.ts and the
initial-schema migration). -/
structure Category where
  id : Nat
  user_id : Nat
  name : String
  parent_id : Option Nat
  is_transfer_category : Bool
  deriving Repr, DecidableEq

/-- The categories table with its identity counter. -/
structure CatDB where
  rows : List Category
  nextId : Nat
  deriving Repr, DecidableEq

/-- An empty categories table. -/
def CatDB.empty : CatDB := ⟨[], 1⟩

/-- One insert into the categories table, returning the generated id. -/
def insertCategory (u : Nat) (name : String) (parentId : Option Nat)
    (isTransferCategory : Bool) (db : CatDB) : CatDB × Nat :=
  ({ rows := db.rows ++ [⟨db.nextId, u, name, parentId, isTransferCategory⟩],
     nextId := db.nextId + 1 }, db.nextId)

/-- The seed_default_categories SQL function (seed-default-categories
migration): inserts the canonical taxonomy for the owner, capturing the
generated ids of Income, Expenses and Business Expenses for the children. -/
def seed_default_categories (u : Nat) (db : CatDB) : CatDB :=
  let (db, incomeId) := insertCategory u "Income" none false db
  let (db, _) := insertCategory u "Contracting Income" (some incomeId) false db
  let (db, _) := insertCategory u "Dividend Payments" (some incomeId) false db
  let (db, expensesId) := insertCategory u "Expenses" none false db
  let (db, bizId) := insertCategory u "Business Expenses" (some expensesId) false db
  let (db, _) := insertCategory u "Motor Vehicle Expenses" (some bizId) false db
  let (db, _) := insertCategory u "Healthcare Supplies" (some bizId) false db
  let (db, _) := insertCategory u "Employee Payments" (some expensesId) false db
  let (db, _) := insertCategory u "Loans to Sole Shareholder" (some expensesId) false db
  let (db, _) := insertCategory u "Utilities" (some expensesId) false db
  let (db, _) := insertCategory u "Rent/Office Space" (some expensesId) false db
  let (db, _) := insertCategory u "Transfers" none false db
  let (db, _) := insertCategory u "Assets" none false db
  let (db, _) := insertCategory u "Liabilities" none false db
  db

/-- ensureDefaultCategories (dashboard query layer): if the owner has no
category at all (the source selects the owner's categories with limit 1 and
tests for length 0), call the seed_default_categories procedure; otherwise do
nothing. -/
def ensureDefaultCategories (u : Nat) (db : CatDB) : CatDB :=
  if (db.rows.filter (fun c => c.user_id == u)).isEmpty then
    seed_default_categories u db
  else db

/-- updateCategory of queries/categories.ts: sets name and parent_id on the
row with the given id (no cycle or descendant check of any kind) and returns
the updated row; the single() call fails when no row matched. -/
def updateCategory (id : Nat) (name : String) (parentId : Option Nat) (db : CatDB) :
    CatDB × Except String Category :=
  let newRows :=
    db.rows.map (fun c => if c.id == id then { c with name := name, parent_id := parentId } else c)
  match newRows.find? (fun c => c.id == id) with
  | none => ({ db with rows := newRows }, .error "Failed to update category")
  | some c => ({ db with rows := newRows }, .ok c)

/-- The parent of a category in the table, if any. -/
def parentOf (db : CatDB) (id : Nat) : Option Nat :=
  (db.rows.find? (fun c => c.id == id)).bind Category.parent_id

/-- Bounded parent-chain test: within the given fuel, does the parent chain
starting at a reach b? With fuel at least the table size this decides the
descendant relation of the category forest. -/
def reachesAncestor (db : CatDB) : Nat → Nat → Nat → Bool
  | 0, _, _ => false
  | fuel + 1, a, b =>
    match parentOf db a with
    | none => false
    | some p => p == b || reachesAncestor db fuel p b

/-- A two-category table of one owner: Income (id 1, a root) and its child
Wages (id 2). -/
def twoCatTable : CatDB :=
  ⟨[⟨1, 7, "Income", none, false⟩, ⟨2, 7, "Wages", some 1, false⟩], 3⟩

/-- Numeric value of a run of decimal digit characters. -/
def digitsToNat (ds : List Char) : Nat :=
  ds.foldl (fun acc c => 10 * acc + (c.toNat - 48)) 0

/-- Leading and trailing whitespace removed from a character list. -/
def trimChars (cs : List Char) : List Char :=
  ((cs.dropWhile Char.isWhitespace).reverse.dropWhile Char.isWhitespace).reverse

/-- The trim method of JS strings. -/
def jsTrim (s : String) : String :=
  ⟨trimChars s.data⟩

/-- Split of a character list on a single separator character, JS split
semantics: the empty list gives one empty group. -/
def splitOnChar (sep : Char) : List Char → List (List Char)
  | [] => [[]]
  | c :: cs =>
    if c == sep then [] :: splitOnChar sep cs
    else
      match splitOnChar sep cs with
      | [] => [[c]]
      | g :: gs => (c :: g) :: gs

/-- The split method of JS strings with a one-character separator. -/
def jsSplit (sep : Char) (s : String) : List String :=
  (splitOnChar sep s.data).map fun cs => ⟨cs⟩

/-- JS parseInt in base 10: skip leading whitespace, optional sign, then a
non-empty run of digits (none when there is no digit, the NaN case). -/
def jsParseIntOpt (s : String) : Option Int :=
  let cs := s.data.dropWhile Char.isWhitespace
  let (sign, rest) : Int × List Char :=
    match cs with
    | '-' :: tl => (-1, tl)
    | '+' :: tl => (1, tl)
    | tl => (1, tl)
  let ds := rest.takeWhile Char.isDigit
  if ds.isEmpty then none else some (sign * (digitsToNat ds : Int))

/-- The amount-field parse of the importer, combining the trim, the blank
fallback to "0" and the NaN fallback to 0 of parseFloat(v?.trim() or "0")
or 0. Amounts are plain decimal numerals read as exact rationals. -/
def jsParseFloatOr0 (s : String) : ℚ :=
  let cs := trimChars s.data
  let (sign, rest) : ℚ × List Char :=
    match cs with
    | '-' :: tl => (-1, tl)
    | '+' :: tl => (1, tl)
    | tl => (1, tl)
  let intDs := rest.takeWhile Char.isDigit
  let rest2 := rest.drop intDs.length
  let fracDs :=
    match rest2 with
    | '.' :: tl => tl.takeWhile Char.isDigit
    | _ => []
  if intDs.isEmpty && fracDs.isEmpty then 0
  else sign * ((digitsToNat intDs : ℚ) + (digitsToNat fracDs : ℚ) / (10 : ℚ) ^ fracDs.length)

/-- Gregorian leap-year rule (ECMAScript DaysInYear). -/
def isLeapYear (y : Int) : Bool :=
  (y % 4 == 0 && y % 100 != 0) || y % 400 == 0

/-- ECMAScript DayFromYear: days from the epoch to January 1 of year y. -/
def dayFromYear (y : Int) : Int :=
  365 * (y - 1970) + (y - 1969).fdiv 4 - (y - 1901).fdiv 100 + (y - 1601).fdiv 400

/-- Days in year before the start of 0-based month m (ECMAScript
DayWithinYear tables). -/
def monthStartOffset (leap : Bool) (m : Nat) : Nat :=
  let base := [0, 31, 59, 90, 120, 151, 181, 212, 243, 273, 304, 334].getD m 0
  if leap && decide (2 ≤ m) then base + 1 else base

/-- ECMAScript MakeDay for the Date(year, month, day) constructor: months
beyond the 0..11 range roll the year, days beyond the month roll forward. -/
def jsMakeDay (year month day : Int) : Int :=
  let ym := year + month.fdiv 12
  let mn := (month % 12).toNat
  dayFromYear ym + (monthStartOffset (isLeapYear ym) mn : Int) + (day - 1)

/-- The Date(year, month, day) constructor followed by the isNaN(getTime())
test of the importer: years 0..99 read as 1900-based, and the time value is
valid exactly when it lies within the representable Date range. Returns the
epoch day of the (possibly rolled-over) calendar date. -/
def jsDateCheck (year month day : Int) : Option Int :=
  let yr := if 0 ≤ year ∧ year ≤ 99 then 1900 + year else year
  let d := jsMakeDay yr month day
  if |d * 86400000| ≤ 8640000000000000 then some d else none

/-- The amount-derivation rule of parseCSV (csv-parser): debit-only rows are
negative, credit-only rows positive, double-zero rows zero, and a row with
both fields non-zero falls back to the credit when it is positive, else to
the negated debit. -/
def deriveAmount (debit credit : ℚ) : ℚ :=
  if debit > 0 ∧ credit = 0 then -debit
  else if credit > 0 ∧ debit = 0 then credit
  else if debit = 0 ∧ credit = 0 then 0
  else if credit > 0 then credit
  else -debit

/-- A parsed import candidate (the ParsedTransaction of csv-parser); the
normalized date is kept as its epoch day. -/
structure ParsedRow where
  day : Int
  description : String
  amount : ℚ
  runningBalance : ℚ
  deriving Repr, DecidableEq

/-- A per-row parse error of parseCSV. -/
structure ParseErr where
  row : Nat
  message : String
  data : List String
  deriving Repr, DecidableEq

/-- The per-row body of parseCSV (csv-parser): at least 5 fields, the first
field trimmed and split on "/" into exactly three components, each parsed
with parseInt, the resulting Date checked for validity, the debit, credit
and balance fields parsed with the 0 fallbacks, the amount derived, and the
trimmed description required to be non-empty. -/
def processRow (row : List String) : Except String ParsedRow :=
  match row with
  | dateStr :: description :: debitStr :: creditStr :: balanceStr :: _ =>
    match jsSplit '/' (jsTrim dateStr) with
    | [mStr, dStr, yStr] =>
      match jsParseIntOpt mStr, jsParseIntOpt dStr, jsParseIntOpt yStr with
      | some m1, some dd, some y =>
        match jsDateCheck y (m1 - 1) dd with
        | none => .error "Invalid date"
        | some day =>
          let debit := jsParseFloatOr0 debitStr
          let credit := jsParseFloatOr0 creditStr
          let runningBalance := jsParseFloatOr0 balanceStr
          let amount := deriveAmount debit credit
          let desc := jsTrim description
          if desc = "" then .error "Description is required"
          else .ok ⟨day, desc, amount, runningBalance⟩
      | _, _, _ => .error "Invalid date values"
    | _ => .error "Invalid date format"
  | _ => .error "Row does not have enough columns"

/-- Containment of a character pattern in a character list. -/
def listContains (pat : List Char) : List Char → Bool
  | [] => pat.isEmpty
  | c :: cs => (pat.isPrefixOf (c :: cs) : Bool) || listContains pat cs

/-- The header test of parseCSV: the first cell, lowercased, contains the
word date. -/
def isHeaderRow (row : List String) : Bool :=
  match row with
  | c :: _ => listContains "date".data (c.data.map Char.toLower)
  | [] => false

/-- The forEach loop of parseCSV over the data rows: the row at index 0 is
skipped when it looks like a header, every other row is processed and its
result collected into the candidates or the errors (reported 1-based). -/
def processRows : Nat → List (List String) → List ParsedRow × List ParseErr
  | _, [] => ([], [])
  | i, row :: rest =>
    if i == 0 && isHeaderRow row then processRows (i + 1) rest
    else
      let r := processRows (i + 1) rest
      match processRow row with
      | .ok t => (t :: r.1, r.2)
      | .error msg => (r.1, ⟨i + 1, msg, row⟩ :: r.2)

/-- parseCSV of csv-parser, over the list of data rows produced by the CSV
reader (empty lines already skipped). -/
def parseCSV (rows : List (List String)) : List ParsedRow × List ParseErr :=
  processRows 0 rows

/-- The date-rejection condition of processRow, stated on the date field
alone: the trimmed field does not split into exactly three slash-separated
components, or a component has no parsable integer, or the resulting Date
falls outside the representable range. -/
def dateRejected (dateStr : String) : Bool :=
  match jsSplit '/' (jsTrim dateStr) with
  | [mStr, dStr, yStr] =>
    match jsParseIntOpt mStr, jsParseIntOpt dStr, jsParseIntOpt yStr with
    | some m1, some dd, some y => (jsDateCheck y (m1 - 1) dd).isNone
    | _, _, _ => true
  | _ => true

theorem calculate_account_balance_eq_sum (db : DB) (accountId : Nat) :
    calculate_account_balance db accountId = sumAmountsForAccount accountId db.rows := by
  unfold calculate_account_balance
  induction db.rows with
  | nil => simp [sumAmountsForAccount]
  | cons t ts ih =>
    by_cases h : t.bank_account_id = accountId
    · simp [sumAmountsForAccount, List.filter_cons, h, ih]
    · simp [sumAmountsForAccount, List.filter_cons, h, ih]

/-- C7: for every account and after every finite sequence of create, update,
delete, transfer and bulk-delete operations, the derived balance
(calculate_account_balance) equals the sum of the amounts of that account's
transactions, and equals 0 for an account with no transactions. -/
theorem accountBalance_eq_sum_of_transactions (ops : List LedgerOp) (accountId : Nat) :
    calculate_account_balance (runOps ops) accountId
      = sumAmountsForAccount accountId (runOps ops).rows ∧
    ((runOps ops).rows.filter (fun t => t.bank_account_id == accountId) = [] →
      calculate_account_balance (runOps ops) accountId = 0) := by
  refine ⟨calculate_account_balance_eq_sum _ _, fun h => ?_⟩
  unfold calculate_account_balance
  simp [h]

/-- Witness for C7: a concrete run (a manual entry, a transfer, an update and
a bulk delete) in which account 2 ends with no transactions and balance 0. -/
theorem accountBalance_eq_sum_of_transactions_witness :
    calculate_account_balance
      (runOps [.create 7 1 5 10 "Coffee" 3 none,
               .transfer 7 1 2 6 100 "Move funds" 9,
               .update 2 { amount := some (-50) },
               .bulkDelete 7 [3]]) 2 = 0 :=
  (accountBalance_eq_sum_of_transactions
      [.create 7 1 5 10 "Coffee" 3 none,
       .transfer 7 1 2 6 100 "Move funds" 9,
       .update 2 { amount := some (-50) },
       .bulkDelete 7 [3]] 2).2 (by decide)

/-- C10: the bulk-delete route reports deleted equal to the length of the
request list for every non-empty request, and on a concrete request naming
ids that do not exist it reports 2 deleted while removing no row at all. -/
theorem bulkDelete_reports_requested_count :
    (∀ (u : Nat) (ids : List Nat) (db : DB), ids ≠ [] →
      (bulkDeleteRoute u (some ids) db).2 = .ok { success := true, deleted := ids.length }) ∧
    ((bulkDeleteRoute 7 (some [5, 6]) ⟨[⟨1, 7, 1, 5, 10, "Coffee", 3, none⟩], 2⟩).2
        = .ok { success := true, deleted := 2 } ∧
      (bulkDeleteRoute 7 (some [5, 6]) ⟨[⟨1, 7, 1, 5, 10, "Coffee", 3, none⟩], 2⟩).1.rows
        = [⟨1, 7, 1, 5, 10, "Coffee", 3, none⟩]) := by
  refine ⟨fun u ids db h => ?_, ⟨rfl, rfl⟩⟩
  simp [bulkDeleteRoute, List.isEmpty_iff, h]

/-- Witness for C10: the universally quantified part at a concrete caller,
request and table. -/
theorem bulkDelete_reports_requested_count_witness :
    (bulkDeleteRoute 7 (some [1, 2, 3]) DB.empty).2
      = .ok { success := true, deleted := 3 } :=
  bulkDelete_reports_requested_count.1 7 [1, 2, 3] DB.empty (by decide)

/-- Counterexample for C2: with amount 0 the transfer creation succeeds, yet
the outgoing half's amount is 0, not strictly negative (and the incoming
half's amount is 0, not strictly positive). -/
theorem transfer_zero_amount_succeeds_nonnegative :
    ∃ p, (createTransferTransaction TransferOracle.allOk 7 1 2 5 0 "Move funds" 9 DB.empty).2
        = .ok p ∧ ¬ p.1.amount < 0 ∧ ¬ 0 < p.2.amount := by
  refine ⟨_, rfl, by decide, by decide⟩

/-- C2 as amended: for a nonzero amount, a fully successful transfer creation
appends exactly the outgoing and incoming rows; the outgoing row sits on the
source account with amount -abs(amount) (strictly negative), the destination
account in transfer_to_account_id and the given description; the incoming row
sits on the destination account with amount abs(amount) (strictly positive,
the exact opposite of the outgoing amount), the source account in
transfer_to_account_id and description "Transfer from " plus the given
description. -/
theorem createTransferTransaction_pair_signs (u fromA toA d : Nat) (amount : ℚ)
    (desc : String) (cat : Nat) (db : DB) (h : amount ≠ 0) :
    ∃ outgoing incoming,
      (createTransferTransaction TransferOracle.allOk u fromA toA d amount desc cat db).2
        = .ok (outgoing, incoming) ∧
      (createTransferTransaction TransferOracle.allOk u fromA toA d amount desc cat db).1.rows
        = db.rows ++ [outgoing, incoming] ∧
      outgoing.bank_account_id = fromA ∧
      outgoing.amount = -|amount| ∧ outgoing.amount < 0 ∧
      outgoing.transfer_to_account_id = some toA ∧
      outgoing.description = desc ∧
      incoming.bank_account_id = toA ∧
      incoming.amount = |amount| ∧ 0 < incoming.amount ∧
      incoming.transfer_to_account_id = some fromA ∧
      incoming.description = "Transfer from " ++ desc ∧
      incoming.amount = -outgoing.amount := by
  have habs : (0 : ℚ) < |amount| := abs_pos.mpr h
  refine ⟨_, _, rfl, ?_, rfl, rfl, by simpa using habs, rfl, rfl, rfl, rfl, habs, rfl, rfl,
    by simp⟩
  simp [createTransferTransaction, TransferOracle.allOk]

/-- Witness for C2: the amended statement at a transfer of 100 from account 1
to account 2. -/
theorem createTransferTransaction_pair_signs_witness :
    ∃ outgoing incoming,
      (createTransferTransaction TransferOracle.allOk 7 1 2 5 100 "Move funds" 9 DB.empty).2
        = .ok (outgoing, incoming) ∧
      (createTransferTransaction TransferOracle.allOk 7 1 2 5 100 "Move funds" 9 DB.empty).1.rows
        = DB.empty.rows ++ [outgoing, incoming] ∧
      outgoing.bank_account_id = 1 ∧
      outgoing.amount = -|(100 : ℚ)| ∧ outgoing.amount < 0 ∧
      outgoing.transfer_to_account_id = some 2 ∧
      outgoing.description = "Move funds" ∧
      incoming.bank_account_id = 2 ∧
      incoming.amount = |(100 : ℚ)| ∧ 0 < incoming.amount ∧
      incoming.transfer_to_account_id = some 1 ∧
      incoming.description = "Transfer from " ++ "Move funds" ∧
      incoming.amount = -outgoing.amount :=
  createTransferTransaction_pair_signs 7 1 2 5 100 "Move funds" 9 DB.empty (by norm_num)

/-- Counterexample for C3: in the execution in which the incoming insert
fails and the compensating delete fails as well (its outcome is not checked
by the source), the operation surfaces the error but the outgoing half is
still persisted on the source account. -/
theorem transfer_rollback_best_effort_counterexample :
    (createTransferTransaction ⟨true, false, false⟩ 7 1 2 5 100 "Move funds" 9 DB.empty).2
      = .error "Failed to create incoming transaction" ∧
    (createTransferTransaction ⟨true, false, false⟩ 7 1 2 5 100 "Move funds" 9 DB.empty).1.rows
      = [⟨1, 7, 1, 5, -100, "Move funds", 9, some 2⟩] :=
  ⟨rfl, rfl⟩

/-- C3 as amended: when the incoming insert fails after the outgoing insert
succeeded, the compensating delete of the outgoing row is issued before the
error is surfaced, and in every execution in which that delete succeeds the
table is left exactly as it was (no trace of the attempted transfer) and the
operation returns the incoming-insert error; the delete itself, however, is
best-effort, because its outcome is not checked. The hypothesis states the
identity-column invariant that existing rows have ids below the counter. -/
theorem createTransferTransaction_rollback_on_incoming_failure (u fromA toA d : Nat)
    (amount : ℚ) (desc : String) (cat : Nat) (db : DB)
    (hids : ∀ t ∈ db.rows, t.id < db.nextId) :
    (createTransferTransaction ⟨true, false, true⟩ u fromA toA d amount desc cat db).1.rows
      = db.rows ∧
    (createTransferTransaction ⟨true, false, true⟩ u fromA toA d amount desc cat db).2
      = .error "Failed to create incoming transaction" := by
  constructor
  · show (db.rows ++ [_]).filter _ = db.rows
    rw [List.filter_append]
    have h1 : db.rows.filter (fun t => t.id != db.nextId) = db.rows := by
      rw [List.filter_eq_self]
      intro t ht
      simpa using Nat.ne_of_lt (hids t ht)
    simp [h1]
  · rfl

/-- Witness for C3: the amended statement on a table holding one prior row. -/
theorem createTransferTransaction_rollback_on_incoming_failure_witness :
    (createTransferTransaction ⟨true, false, true⟩ 7 1 2 5 100 "Move funds" 9
        ⟨[⟨1, 7, 1, 4, 10, "Coffee", 3, none⟩], 2⟩).1.rows
      = [⟨1, 7, 1, 4, 10, "Coffee", 3, none⟩] ∧
    (createTransferTransaction ⟨true, false, true⟩ 7 1 2 5 100 "Move funds" 9
        ⟨[⟨1, 7, 1, 4, 10, "Coffee", 3, none⟩], 2⟩).2
      = .error "Failed to create incoming transaction" :=
  createTransferTransaction_rollback_on_incoming_failure 7 1 2 5 100 "Move funds" 9
    ⟨[⟨1, 7, 1, 4, 10, "Coffee", 3, none⟩], 2⟩ (by decide)

/-- C1: on three same-account transactions with identical dates,
getTransactions attaches the whole-date total 60 to every row — the inner
query filters only by date lte, so the id tiebreaker never limits which rows
are summed — whereas the running balances described by the claim (ties broken
by insertion/id order) are 10, 30, 60. -/
theorem runningBalance_ignores_id_tiebreak :
    (attachRunningBalances sameDateLedger sameDateLedger.rows).map Prod.snd
      = [60, 60, 60] ∧
    sameDateLedger.rows.map (spec_runningBalance sameDateLedger) = [10, 30, 60] := by
  constructor <;>
    simp [attachRunningBalances, sameDateLedger, runningBalanceOf, spec_runningBalance] <;>
    norm_num

/-- Counterexample for C8: a manual entry with amount 0 and all other fields
present passes the route's validation and is persisted. -/
theorem zero_amount_transaction_persisted :
    (POST_transactions 7 ⟨some 1, some 5, some 0, some "Opening", some 3, none⟩ DB.empty).2
      = .ok [⟨1, 7, 1, 5, 0, "Opening", 3, none⟩] ∧
    ⟨1, 7, 1, 5, 0, "Opening", 3, none⟩ ∈
      (POST_transactions 7 ⟨some 1, some 5, some 0, some "Opening", some 3, none⟩
          DB.empty).1.rows :=
  ⟨rfl, by decide⟩

/-- C8 as amended: neither the POST route nor createTransaction validates the
numeric value of amount; a request whose bank_account_id, date, description
and category_id are truthy and whose amount is present (zero included)
succeeds on the non-transfer path, and the row is persisted with exactly the
given amount. -/
theorem createTransaction_accepts_any_amount (u : Nat) (body : PostBody) (db : DB)
    (hacct : truthyNat body.bank_account_id = true)
    (hdate : body.date.isSome = true)
    (hamt : body.amount.isSome = true)
    (hdesc : truthyStr body.description = true)
    (hcat : truthyNat body.category_id = true)
    (htto : truthyNat body.transfer_to_account_id = false) :
    ∃ t, (POST_transactions u body db).2 = .ok [t] ∧
      t.amount = body.amount.getD 0 ∧
      (POST_transactions u body db).1.rows = db.rows ++ [t] := by
  refine ⟨⟨db.nextId, u, body.bank_account_id.getD 0, body.date.getD 0, body.amount.getD 0,
      body.description.getD "", body.category_id.getD 0, none⟩, ?_, rfl, ?_⟩ <;>
    simp [POST_transactions, hacct, hdate, hamt, hdesc, hcat, htto, createTransaction]

/-- Witness for C8: the amended statement on a concrete zero-amount entry. -/
theorem createTransaction_accepts_any_amount_witness :
    ∃ t, (POST_transactions 7 ⟨some 1, some 5, some 0, some "Void", some 3, none⟩
          DB.empty).2 = .ok [t] ∧
      t.amount = (PostBody.amount ⟨some 1, some 5, some 0, some "Void", some 3, none⟩).getD 0 ∧
      (POST_transactions 7 ⟨some 1, some 5, some 0, some "Void", some 3, none⟩
          DB.empty).1.rows = DB.empty.rows ++ [t] :=
  createTransaction_accepts_any_amount 7 ⟨some 1, some 5, some 0, some "Void", some 3, none⟩
    DB.empty (by decide) (by decide) (by decide) (by decide) (by decide) (by decide)

/-- Counterexample for C6: in a table where category 2 is a descendant of
category 1, updateCategory succeeds in re-parenting category 1 under
category 2, leaving the cycle 1 to 2 to 1 in the owner's category graph
instead of rejecting the change. -/
theorem updateCategory_creates_cycle :
    reachesAncestor twoCatTable 2 2 1 = true ∧
    (updateCategory 1 "Income" (some 2) twoCatTable).2
      = .ok ⟨1, 7, "Income", some 2, false⟩ ∧
    parentOf (updateCategory 1 "Income" (some 2) twoCatTable).1 1 = some 2 ∧
    parentOf (updateCategory 1 "Income" (some 2) twoCatTable).1 2 = some 1 :=
  ⟨rfl, rfl, rfl, rfl⟩

/-- C6 as amended: updateCategory applies the requested name and parent_id
unconditionally to any existing category — it performs no descendant or cycle
check, so a parent change whose new parent is a descendant of the updated
category succeeds (and can leave a cyclic category graph, as the concrete
cycle above shows). -/
theorem updateCategory_no_cycle_check (db : CatDB) (id : Nat) (name : String)
    (pid : Option Nat) (h : (db.rows.find? (fun c => c.id == id)).isSome = true) :
    ∃ c, (updateCategory id name pid db).2 = .ok c ∧
      c.id = id ∧ c.name = name ∧ c.parent_id = pid := by
  obtain ⟨c0, hc0⟩ := Option.isSome_iff_exists.mp h
  have hid : (c0.id == id) = true := by simpa using List.find?_some hc0
  have hpred : ∀ c : Category,
      ((if c.id == id then { c with name := name, parent_id := pid } else c).id == id)
        = (c.id == id) := by
    intro c
    by_cases hc : (c.id == id) = true
    · simp [hc]
    · simp [Bool.not_eq_true] at hc
      simp [hc]
  have hfind :
      (db.rows.map
          (fun c => if c.id == id then { c with name := name, parent_id := pid } else c)).find?
          (fun c => c.id == id)
        = some { c0 with name := name, parent_id := pid } := by
    rw [List.find?_map]
    have : ((fun c : Category => c.id == id) ∘
        (fun c => if c.id == id then { c with name := name, parent_id := pid } else c))
          = fun c : Category => c.id == id := by
      funext c
      exact hpred c
    rw [this, hc0]
    simp [Option.map, hid]
  refine ⟨{ c0 with name := name, parent_id := pid }, ?_, by simpa using hid, rfl, rfl⟩
  unfold updateCategory
  simp only [hfind]

/-- Witness for C6: the amended statement on the two-category table. -/
theorem updateCategory_no_cycle_check_witness :
    ∃ c, (updateCategory 1 "Income" (some 2) twoCatTable).2 = .ok c ∧
      c.id = 1 ∧ c.name = "Income" ∧ c.parent_id = some 2 :=
  updateCategory_no_cycle_check twoCatTable 1 "Income" (some 2) (by decide)

/-- C9: seeding is guarded by the owner-has-zero-categories test, so on a
fresh owner a second call of ensureDefaultCategories finds the just-seeded
categories and does nothing: two calls produce exactly the category table of
one call. -/
theorem ensureDefaultCategories_idempotent (u : Nat) (db : CatDB)
    (h : (db.rows.filter (fun c => c.user_id == u)).isEmpty = true) :
    ensureDefaultCategories u (ensureDefaultCategories u db)
      = ensureDefaultCategories u db := by
  have h1 : ensureDefaultCategories u db = seed_default_categories u db := by
    unfold ensureDefaultCategories
    simp [h]
  have hmem : (⟨db.nextId, u, "Income", none, false⟩ : Category)
      ∈ (seed_default_categories u db).rows := by
    simp [seed_default_categories, insertCategory]
  have h2 : ((seed_default_categories u db).rows.filter
      (fun c => c.user_id == u)).isEmpty = false := by
    rcases hfl : (seed_default_categories u db).rows.filter (fun c => c.user_id == u) with
      _ | ⟨a, l⟩
    · exfalso
      have := List.filter_eq_nil_iff.mp hfl _ hmem
      simp at this
    · rw [hfl]
      rfl
  rw [h1]
  unfold ensureDefaultCategories
  simp [h2]

/-- Witness for C9: idempotence on a concrete fresh owner. -/
theorem ensureDefaultCategories_idempotent_witness :
    ensureDefaultCategories 7 (ensureDefaultCategories 7 CatDB.empty)
      = ensureDefaultCategories 7 CatDB.empty :=
  ensureDefaultCategories_idempotent 7 CatDB.empty (by decide)

theorem processRow_cons_spec (a b c d e : String) (rest : List String) :
    (dateRejected a = false → jsTrim b ≠ "" →
      ∃ day, processRow (a :: b :: c :: d :: e :: rest)
        = .ok ⟨day, jsTrim b, deriveAmount (jsParseFloatOr0 c) (jsParseFloatOr0 d),
            jsParseFloatOr0 e⟩) ∧
    (dateRejected a = true ∨ jsTrim b = "" →
      ∃ msg, processRow (a :: b :: c :: d :: e :: rest) = .error msg) := by
  rcases h1 : jsSplit '/' (jsTrim a) with _ | ⟨p1, l1⟩
  · simp [processRow, dateRejected, h1]
  rcases l1 with _ | ⟨p2, l2⟩
  · simp [processRow, dateRejected, h1]
  rcases l2 with _ | ⟨p3, l3⟩
  · simp [processRow, dateRejected, h1]
  rcases l3 with _ | ⟨p4, tl⟩
  swap
  · simp [processRow, dateRejected, h1]
  rcases h2 : jsParseIntOpt p1 with _ | m1
  · rcases h3 : jsParseIntOpt p2 with _ | d2 <;>
      rcases h4 : jsParseIntOpt p3 with _ | y <;>
        simp [processRow, dateRejected, h1, h2, h3, h4]
  rcases h3 : jsParseIntOpt p2 with _ | d2
  · rcases h4 : jsParseIntOpt p3 with _ | y <;>
      simp [processRow, dateRejected, h1, h2, h3, h4]
  rcases h4 : jsParseIntOpt p3 with _ | y
  · simp [processRow, dateRejected, h1, h2, h3, h4]
  rcases h5 : jsDateCheck y (m1 - 1) d2 with _ | day
  · simp [processRow, dateRejected, h1, h2, h3, h4, h5]
  by_cases h6 : jsTrim b = ""
  · simp [processRow, dateRejected, h1, h2, h3, h4, h5, h6]
  · constructor
    · intro hfalse hb
      exact ⟨day, by simp [processRow, h1, h2, h3, h4, h5, h6]⟩
    · intro hor
      rcases hor with h | h
      · simp [dateRejected, h1, h2, h3, h4, h5] at h
      · exact absurd h h6

theorem processRow_ok_amount (a b c d e : String) (rest : List String) (p : ParsedRow)
    (hp : processRow (a :: b :: c :: d :: e :: rest) = .ok p) :
    p.amount = deriveAmount (jsParseFloatOr0 c) (jsParseFloatOr0 d) := by
  have h := processRow_cons_spec a b c d e rest
  by_cases hd : dateRejected a = true
  · obtain ⟨msg, hmsg⟩ := h.2 (Or.inl hd)
    rw [hp] at hmsg
    simp at hmsg
  · by_cases hb : jsTrim b = ""
    · obtain ⟨msg, hmsg⟩ := h.2 (Or.inr hb)
      rw [hp] at hmsg
      simp at hmsg
    · have hd0 : dateRejected a = false := by simpa using hd
      obtain ⟨day, hok⟩ := h.1 hd0 hb
      rw [hp] at hok
      rw [Except.ok.injEq] at hok
      subst hok
      rfl

/-- C4: for every row accepted by processRow, the attached amount is exactly
deriveAmount of the parsed debit and credit fields; deriveAmount follows the
four-case rule of the specification (-d for debit-only, c for credit-only, 0
for double-zero, and for malformed rows with both non-zero the credit when
positive, else the negated debit); and a row with debit and credit both 0 is
still accepted, with amount 0. -/
theorem parseCSV_amount_derivation :
    (∀ (a b c d e : String) (rest : List String) (p : ParsedRow),
      processRow (a :: b :: c :: d :: e :: rest) = .ok p →
      p.amount = deriveAmount (jsParseFloatOr0 c) (jsParseFloatOr0 d)) ∧
    (∀ debit credit : ℚ,
      (debit > 0 → credit = 0 → deriveAmount debit credit = -debit) ∧
      (credit > 0 → debit = 0 → deriveAmount debit credit = credit) ∧
      (debit = 0 → credit = 0 → deriveAmount debit credit = 0) ∧
      (debit ≠ 0 → credit ≠ 0 →
        deriveAmount debit credit = if credit > 0 then credit else -debit)) ∧
    ((processRow ["01/15/2025", "Payment", "0", "0", "0"]).isOk = true ∧
      ∀ (a b c d e : String) (rest : List String) (p : ParsedRow),
        processRow (a :: b :: c :: d :: e :: rest) = .ok p →
        jsParseFloatOr0 c = 0 → jsParseFloatOr0 d = 0 → p.amount = 0) := by
  refine ⟨fun a b c d e rest p hp => processRow_ok_amount a b c d e rest p hp,
    fun debit credit => ⟨?_, ?_, ?_, ?_⟩, rfl, fun a b c d e rest p hp hc hd => ?_⟩
  · intro h1 h2
    simp [deriveAmount, h1, h2]
  · intro h1 h2
    simp [deriveAmount, h1, h2]
  · intro h1 h2
    simp [deriveAmount, h1, h2]
  · intro h1 h2
    simp only [deriveAmount]
    rw [if_neg (by tauto), if_neg (by tauto), if_neg (by tauto)]
  · rw [processRow_ok_amount a b c d e rest p hp, hc, hd]
    simp [deriveAmount]

/-- Witness for C4: the derivation rule applied to a parsed debit of 3.50
with a blank credit yields -3.50. -/
theorem parseCSV_amount_derivation_witness :
    deriveAmount (7 / 2) 0 = -(7 / 2) :=
  (parseCSV_amount_derivation.2.1 (7 / 2) 0).1 (by norm_num) rfl

/-- Counterexample for C5: the row dated 02/30/2025 — an impossible calendar
date — is not rejected: parseCSV returns it among the candidates with no
error, its date rolled over to epoch day 20149, which is 2025-03-02. -/
theorem parseCSV_accepts_impossible_date :
    (parseCSV [["02/30/2025", "Groceries", "3.50", "", "100.00"]]).2 = [] ∧
    (parseCSV [["02/30/2025", "Groceries", "3.50", "", "100.00"]]).1.map ParsedRow.day
      = [20149] :=
  ⟨rfl, rfl⟩

/-- C5 as amended: a row with fewer than 5 fields is rejected; a row with at
least 5 fields is rejected exactly when its first field fails the date check
(the trimmed field does not split on "/" into exactly three components with
a parsable integer each, or the resulting Date lies outside the
representable range — numerically impossible calendar dates such as
02/30/2025 roll over and are accepted) or its description is empty after
trimming; and a rejected non-header row is collected into the errors while
the rest of the batch is still processed and contributes nothing to the
candidates. -/
theorem processRow_rejects_iff :
    (∀ row : List String, row.length < 5 → ∃ msg, processRow row = .error msg) ∧
    (∀ (a b c d e : String) (rest : List String),
      (∃ msg, processRow (a :: b :: c :: d :: e :: rest) = .error msg) ↔
        (dateRejected a = true ∨ jsTrim b = "")) ∧
    (∀ (i : Nat) (row : List String) (rest : List (List String)) (msg : String),
      processRow row = .error msg → (i == 0 && isHeaderRow row) = false →
      (processRows i (row :: rest)).1 = (processRows (i + 1) rest).1 ∧
      (processRows i (row :: rest)).2 = ⟨i + 1, msg, row⟩ :: (processRows (i + 1) rest).2) := by
  refine ⟨?_, ?_, ?_⟩
  · intro row h
    rcases row with _ | ⟨a, _ | ⟨b, _ | ⟨c, _ | ⟨d, _ | ⟨e, rest⟩⟩⟩⟩⟩
    · exact ⟨_, rfl⟩
    · exact ⟨_, rfl⟩
    · exact ⟨_, rfl⟩
    · exact ⟨_, rfl⟩
    · exact ⟨_, rfl⟩
    · simp at h
      omega
  · intro a b c d e rest
    constructor
    · rintro ⟨msg, hmsg⟩
      by_contra hcon
      push_neg at hcon
      obtain ⟨hdate, hdesc⟩ := hcon
      have hdr : dateRejected a = false := by simpa using hdate
      obtain ⟨day, hok⟩ := (processRow_cons_spec a b c d e rest).1 hdr hdesc
      rw [hok] at hmsg
      simp at hmsg
    · exact fun hor => (processRow_cons_spec a b c d e rest).2 hor
  · intro i row rest msg hrow hhd
    rw [show processRows i (row :: rest)
        = if i == 0 && isHeaderRow row then processRows (i + 1) rest
          else
            match processRow row with
            | .ok t => (t :: (processRows (i + 1) rest).1, (processRows (i + 1) rest).2)
            | .error m =>
                ((processRows (i + 1) rest).1,
                  ⟨i + 1, m, row⟩ :: (processRows (i + 1) rest).2) from rfl]
    rw [hhd, hrow]
    exact ⟨rfl, rfl⟩

/-- Witness for C5: a one-field row is rejected. -/
theorem processRow_rejects_iff_witness :
    ∃ msg, processRow ["01/15/2025"] = .error msg :=
  processRow_rejects_iff.1 ["01/15/2025"] (by simp)

end Bookkeeping
